import Mathlib

/-!
# OpenStack networking data sources and sub-net pool test checks

A shallow embedding of

* `dataSourceNetworkingRouterV2Read` (data_source_openstack_networking_router_v2.go),
* `dataSourceNetworkingTrunkV2Read` (data_source_openstack_networking_trunk_v2.go),
* `testAccCheckNetworkingV2SubnetPoolDestroy` and
  `testAccCheckNetworkingV2SubnetPoolPrefixesConsistency`
  (resource_openstack_networking_subnetpool_v2_test.go).

The Terraform resource data `d` is passed explicitly: a handler takes the value of `d`
before the call and returns the value after the call together with its diagnostics.
The remote side (client creation, paging, extraction, look-ups, the outcome of `d.Set`)
is an environment record of functions.
-/

namespace Openstack

/-! ## Go values -/

/-- A Go `map[string]V`: at most one entry per key, kept as an association list. -/
def GoMap (V : Type) := List (String × V)

instance {V : Type} [DecidableEq V] : DecidableEq (GoMap V) :=
  inferInstanceAs (DecidableEq (List (String × V)))

instance {V : Type} [Repr V] : Repr (GoMap V) :=
  inferInstanceAs (Repr (List (String × V)))

/-- The empty map `map[string]V{}` (also what `make(map[string]V)` returns). -/
def GoMap.empty {V : Type} : GoMap V := ([] : List (String × V))

/-- The statement `m[k] = v`: replaces the entry of `k` or adds one. -/
def GoMap.set {V : Type} : GoMap V → String → V → GoMap V
  | [], k, v => [(k, v)]
  | (k', v') :: rest, k, v =>
    if k' = k then (k, v) :: rest else (k', v') :: GoMap.set rest k v

/-- The two-valued look-up `v, ok := m[k]`. -/
def GoMap.get {V : Type} : GoMap V → String → Option V
  | [], _ => none
  | (k', v') :: rest, k => if k' = k then some v' else GoMap.get rest k

/-- The entries of a map in the order a `range` visits them. -/
def GoMap.entries {V : Type} (m : GoMap V) : List (String × V) := m

/-- A Go slice whose nil-ness matters: `none` is the nil slice. -/
abbrev GoSlice (α : Type) := Option (List α)

/-- The call `make([]T, 0, cap)`: an empty slice that is not nil. -/
def GoSlice.make0 {α : Type} (_cap : Nat) : GoSlice α := some []

/-- The call `append(s, x)`; appending to the nil slice allocates. -/
def GoSlice.append {α : Type} (s : GoSlice α) (x : α) : GoSlice α :=
  match s with
  | none => some [x]
  | some l => some (l ++ [x])

/-- What a `map[string]any` of the trunk data source holds: a string or an int. -/
inductive Scalar where
  | str (s : String)
  | int (n : Int)
  deriving DecidableEq, Repr

/-- The values read from the configuration and handed to `d.Set`. -/
inductive Value where
  | str (s : String)
  | bool (b : Bool)
  | boolPtr (b : Option Bool)
  | strs (l : List String)
  | strMaps (l : GoSlice (GoMap String))
  | anyMaps (l : List (GoMap Scalar))
  deriving DecidableEq, Repr

/-! ## Diagnostics -/

/-- Severity of a diagnostic (`diag.Error`, `diag.Warning`). -/
inductive Severity where
  | error
  | warning
  deriving DecidableEq, Repr

/-- One `diag.Diagnostic`. -/
structure Diagnostic where
  severity : Severity
  summary : String
  deriving DecidableEq, Repr

/-- The type `diag.Diagnostics`; the Go `nil` is the empty list. -/
abbrev Diagnostics := List Diagnostic

/-- The call `diag.Errorf(msg)` with the message already formatted. -/
def diagErrorf (msg : String) : Diagnostics := [{ severity := Severity.error, summary := msg }]

/-! ## Resource data -/

/-- The resource data `d *schema.ResourceData`: the configuration it was built from, the
ID and the attributes written so far. -/
structure ResourceData where
  config : GoMap Value
  id : String
  state : GoMap Value
  deriving DecidableEq, Repr

/-- The call `d.GetOk(key)` followed by `.(string)`: `ok` holds when the attribute has a
non-zero value. -/
def ResourceData.getOkString (d : ResourceData) (key : String) : String × Bool :=
  match d.config.get key with
  | some (Value.str s) => (s, s ≠ "")
  | _ => ("", false)

/-- The call `d.GetOk(key)` followed by `.(bool)`: `ok` holds when the attribute has a
non-zero value, that is when it is `true`. -/
def ResourceData.getOkBool (d : ResourceData) (key : String) : Bool × Bool :=
  match d.config.get key with
  | some (Value.bool b) => (b, b)
  | _ => (false, false)

/-- Modelled from the spec: the helper `getOkExists(d, key)` of this provider, which is not
in the reviewed files. It reports the configured boolean and `ok = true` whenever the
attribute is present in the configuration, also when it is `false`. -/
def getOkExists (d : ResourceData) (key : String) : Bool × Bool :=
  match d.config.get key with
  | some (Value.bool b) => (b, true)
  | _ => (false, false)

/-- Modelled from the spec: the helper `networkingV2AttributesTags(d)` of this provider,
which is not in the reviewed files. It returns the strings of the `tags` attribute. -/
def networkingV2AttributesTags (d : ResourceData) : List String :=
  match d.config.get "tags" with
  | some (Value.strs l) => l
  | _ => []

/-- The call `strings.Join(elems, sep)`. -/
def stringsJoin (elems : List String) (sep : String) : String := sep.intercalate elems

/-- The call `d.SetId(id)`. -/
def ResourceData.setId (d : ResourceData) (id : String) : ResourceData := { d with id := id }

/-- The call `d.Set(key, value)`. Whether the schema accepts the value is decided by
`setErr`; a refused value leaves `d` as it was. -/
def ResourceData.set (setErr : String → Value → Option String) (d : ResourceData)
    (key : String) (value : Value) : ResourceData × Option String :=
  match setErr key value with
  | some e => (d, some e)
  | none => ({ d with state := d.state.set key value }, none)

/-! ## Router data source -/

/-- The struct `routers.ListOpts` of the SDK. -/
structure RouterListOpts where
  ID : String := ""
  Name : String := ""
  Description : String := ""
  AdminStateUp : Option Bool := none
  Distributed : Option Bool := none
  Status : String := ""
  TenantID : String := ""
  ProjectID : String := ""
  Limit : Int := 0
  Marker : String := ""
  SortKey : String := ""
  SortDir : String := ""
  Tags : String := ""
  TagsAny : String := ""
  NotTags : String := ""
  NotTagsAny : String := ""
  deriving DecidableEq, Repr

/-- The struct `routers.ExternalFixedIP`. -/
structure ExternalFixedIP where
  IPAddress : String
  SubnetID : String
  deriving DecidableEq, Repr

/-- The struct `routers.GatewayInfo`. -/
structure GatewayInfo where
  NetworkID : String
  EnableSNAT : Option Bool
  ExternalFixedIPs : List ExternalFixedIP
  QoSPolicyID : String
  deriving DecidableEq, Repr

/-- The struct `routers.Route`. -/
structure Route where
  NextHop : String
  DestinationCIDR : String
  deriving DecidableEq, Repr

/-- The struct `routers.Router`. -/
structure Router where
  Status : String
  GatewayInfo : GatewayInfo
  AdminStateUp : Bool
  Distributed : Bool
  Name : String
  Description : String
  ID : String
  TenantID : String
  ProjectID : String
  Routes : List Route
  AvailabilityZoneHints : List String
  Tags : List String
  deriving DecidableEq, Repr

/-- What the router read gets from outside: the outcome of
`config.NetworkingV2Client`, `GetRegion`, `routers.List(...).AllPages`,
`routers.ExtractRouters`, `expandNetworkingRouterRoutesV2` and of each `d.Set`. -/
structure RouterEnv (Pages : Type) where
  clientErr : Option String
  getRegion : ResourceData → String
  allPages : RouterListOpts → Except String Pages
  extractRouters : Pages → Except String (List Router)
  expandRoutes : List Route → Value
  setErr : String → Value → Option String

/-- Lines 122-157 of the router read: the list options built from the configuration. -/
def routerListOpts (d : ResourceData) : RouterListOpts :=
  let listOpts : RouterListOpts := {}
  let listOpts :=
    match d.getOkString "router_id" with
    | (v, true) => { listOpts with ID := v }
    | _ => listOpts
  let listOpts :=
    match d.getOkString "name" with
    | (v, true) => { listOpts with Name := v }
    | _ => listOpts
  let listOpts :=
    match d.getOkString "description" with
    | (v, true) => { listOpts with Description := v }
    | _ => listOpts
  let listOpts :=
    match getOkExists d "admin_state_up" with
    | (asu, true) => { listOpts with AdminStateUp := some asu }
    | _ => listOpts
  let listOpts :=
    match getOkExists d "distributed" with
    | (dist, true) => { listOpts with Distributed := some dist }
    | _ => listOpts
  let listOpts :=
    match d.getOkString "status" with
    | (v, true) => { listOpts with Status := v }
    | _ => listOpts
  let listOpts :=
    match d.getOkString "tenant_id" with
    | (v, true) => { listOpts with TenantID := v }
    | _ => listOpts
  let tags := networkingV2AttributesTags d
  if tags.length > 0 then { listOpts with Tags := stringsJoin tags "," } else listOpts

/-- Lines 199-205 of the router read: the gateway's fixed IPs as a slice of maps. -/
def routerExternalFixedIPs (ips : List ExternalFixedIP) : GoSlice (GoMap String) :=
  ips.foldl
    (fun acc v =>
      acc.append ((GoMap.empty.set "subnet_id" v.SubnetID).set "ip_address" v.IPAddress))
    (GoSlice.make0 ips.length)

/-- Lines 177-211 of the router read: the writes for the single match. The result of
every `d.Set` but the last two is dropped by the source; the last two are only logged. -/
def routerPopulate {Pages : Type} (env : RouterEnv Pages) (d : ResourceData) (router : Router) :
    ResourceData :=
  let d := d.setId router.ID
  let d := (d.set env.setErr "name" (Value.str router.Name)).1
  let d := (d.set env.setErr "description" (Value.str router.Description)).1
  let d := (d.set env.setErr "admin_state_up" (Value.bool router.AdminStateUp)).1
  let d := (d.set env.setErr "distributed" (Value.bool router.Distributed)).1
  let d := (d.set env.setErr "status" (Value.str router.Status)).1
  let d := (d.set env.setErr "tenant_id" (Value.str router.TenantID)).1
  let d := (d.set env.setErr "external_network_id" (Value.str router.GatewayInfo.NetworkID)).1
  let d := (d.set env.setErr "enable_snat" (Value.boolPtr router.GatewayInfo.EnableSNAT)).1
  let d := (d.set env.setErr "external_qos_policy_id" (Value.str router.GatewayInfo.QoSPolicyID)).1
  let d := (d.set env.setErr "all_tags" (Value.strs router.Tags)).1
  let d := (d.set env.setErr "routes" (env.expandRoutes router.Routes)).1
  let d := (d.set env.setErr "region" (Value.str (env.getRegion d))).1
  let d := (d.set env.setErr "availability_zone_hints" (Value.strs router.AvailabilityZoneHints)).1
  let externalFixedIPs := routerExternalFixedIPs router.GatewayInfo.ExternalFixedIPs
  let d := (d.set env.setErr "external_fixed_ip" (Value.strMaps externalFixedIPs)).1
  d

/-- The handler `dataSourceNetworkingRouterV2Read`: the resource data after the call and
the diagnostics returned. -/
def dataSourceNetworkingRouterV2Read {Pages : Type} (env : RouterEnv Pages) (d : ResourceData) :
    ResourceData × Diagnostics :=
  match env.clientErr with
  | some err => (d, diagErrorf ("Error creating OpenStack networking client: " ++ err))
  | none =>
    let listOpts := routerListOpts d
    match env.allPages listOpts with
    | Except.error err => (d, diagErrorf ("Unable to list Routers: " ++ err))
    | Except.ok pages =>
      match env.extractRouters pages with
      | Except.error err => (d, diagErrorf ("Unable to retrieve Routers: " ++ err))
      | Except.ok allRouters =>
        if allRouters.length < 1 then
          (d, diagErrorf "No Router found")
        else if allRouters.length > 1 then
          (d, diagErrorf "More than one Router found")
        else
          match allRouters with
          | router :: _ => (routerPopulate env d router, [])
          | [] => (d, [])

/-! ## Trunk data source -/

/-- The struct `trunks.ListOpts` of the SDK. -/
structure TrunkListOpts where
  AdminStateUp : Option Bool := none
  Description : String := ""
  ID : String := ""
  Marker : String := ""
  Limit : Int := 0
  Name : String := ""
  PortID : String := ""
  RevisionNumber : String := ""
  Status : String := ""
  TenantID : String := ""
  ProjectID : String := ""
  SortDir : String := ""
  SortKey : String := ""
  Tags : String := ""
  TagsAny : String := ""
  NotTags : String := ""
  NotTagsAny : String := ""
  deriving DecidableEq, Repr

/-- The struct `trunks.Subport`. -/
structure Subport where
  SegmentationID : Int
  SegmentationType : String
  PortID : String
  deriving DecidableEq, Repr

/-- The struct `trunks.Trunk`. -/
structure Trunk where
  AdminStateUp : Bool
  Description : String
  ID : String
  Name : String
  PortID : String
  ProjectID : String
  TenantID : String
  Status : String
  Subports : List Subport
  Tags : List String
  deriving DecidableEq, Repr

/-- What the trunk read gets from outside: the outcome of `config.NetworkingV2Client`,
`GetRegion`, `trunks.List(...).AllPages`, `trunks.ExtractTrunks` and of each `d.Set`. -/
structure TrunkEnv (Pages : Type) where
  clientErr : Option String
  getRegion : ResourceData → String
  allPages : TrunkListOpts → Except String Pages
  extractTrunks : Pages → Except String (List Trunk)
  setErr : String → Value → Option String

/-- Lines 104-138 of the trunk read: the list options built from the configuration. -/
def trunkListOpts (d : ResourceData) : TrunkListOpts :=
  let listOpts : TrunkListOpts := {}
  let listOpts :=
    match d.getOkString "name" with
    | (v, true) => { listOpts with Name := v }
    | _ => listOpts
  let listOpts :=
    match d.getOkString "description" with
    | (v, true) => { listOpts with Description := v }
    | _ => listOpts
  let listOpts :=
    match d.getOkString "trunk_id" with
    | (v, true) => { listOpts with ID := v }
    | _ => listOpts
  let listOpts :=
    match d.getOkString "port_id" with
    | (v, true) => { listOpts with PortID := v }
    | _ => listOpts
  let listOpts :=
    match d.getOkBool "admin_state_up" with
    | (asu, true) => { listOpts with AdminStateUp := some asu }
    | _ => listOpts
  let listOpts :=
    match d.getOkString "project_id" with
    | (v, true) => { listOpts with ProjectID := v }
    | _ => listOpts
  let listOpts :=
    match d.getOkString "status" with
    | (v, true) => { listOpts with Status := v }
    | _ => listOpts
  let tags := networkingV2AttributesTags d
  if tags.length > 0 then { listOpts with Tags := stringsJoin tags "," } else listOpts

/-- One round of the loop of lines 175-180: element `i` becomes a fresh map, which then
gets its three entries. -/
def trunkSubportStep (subports : List (GoMap Scalar)) (i : Nat) (trunkSubport : Subport) :
    List (GoMap Scalar) :=
  let subports := subports.set i GoMap.empty
  let subports :=
    subports.set i ((subports.getD i GoMap.empty).set "port_id" (Scalar.str trunkSubport.PortID))
  let subports :=
    subports.set i
      ((subports.getD i GoMap.empty).set "segmentation_type"
        (Scalar.str trunkSubport.SegmentationType))
  let subports :=
    subports.set i
      ((subports.getD i GoMap.empty).set "segmentation_id"
        (Scalar.int trunkSubport.SegmentationID))
  subports

/-- The loop `for i, trunkSubport := range ...` started at index `i`. -/
def trunkSubportLoop : List (GoMap Scalar) → Nat → List Subport → List (GoMap Scalar)
  | subports, _, [] => subports
  | subports, i, trunkSubport :: rest =>
    trunkSubportLoop (trunkSubportStep subports i trunkSubport) (i + 1) rest

/-- Lines 174-180 of the trunk read: a slice of `len(trunk.Subports)` maps, filled in
index by index. -/
def trunkSubports (trunkSubports : List Subport) : List (GoMap Scalar) :=
  trunkSubportLoop (List.replicate trunkSubports.length GoMap.empty) 0 trunkSubports

/-- Lines 160-186 of the trunk read: the writes for the single match. Only the result of
the last `d.Set` is looked at. -/
def trunkPopulate {Pages : Type} (env : TrunkEnv Pages) (d : ResourceData) (trunk : Trunk) :
    ResourceData × Diagnostics :=
  let d := d.setId trunk.ID
  let d := (d.set env.setErr "region" (Value.str (env.getRegion d))).1
  let d := (d.set env.setErr "name" (Value.str trunk.Name)).1
  let d := (d.set env.setErr "description" (Value.str trunk.Description)).1
  let d := (d.set env.setErr "port_id" (Value.str trunk.PortID)).1
  let d := (d.set env.setErr "admin_state_up" (Value.bool trunk.AdminStateUp)).1
  let d := (d.set env.setErr "status" (Value.str trunk.Status)).1
  let d := (d.set env.setErr "project_id" (Value.str trunk.ProjectID)).1
  let d := (d.set env.setErr "all_tags" (Value.strs trunk.Tags)).1
  let subports := trunkSubports trunk.Subports
  match d.set env.setErr "sub_port" (Value.anyMaps subports) with
  | (d, some err) =>
    (d, diagErrorf ("Unable to set sub_port for trunk " ++ d.id ++ ": " ++ err))
  | (d, none) => (d, [])

/-- The message of the trunk read when nothing matched. -/
def trunkNoResultsMsg : String :=
  "Your query returned no results. " ++ "Please change your search criteria and try again."

/-- The message of the trunk read when more than one trunk matched. -/
def trunkManyResultsMsg : String :=
  "Your query returned more than one result." ++ " Please try a more specific search criteria"

/-- The handler `dataSourceNetworkingTrunkV2Read`: the resource data after the call and
the diagnostics returned. -/
def dataSourceNetworkingTrunkV2Read {Pages : Type} (env : TrunkEnv Pages) (d : ResourceData) :
    ResourceData × Diagnostics :=
  match env.clientErr with
  | some err => (d, diagErrorf ("Error creating OpenStack networking client: " ++ err))
  | none =>
    let listOpts := trunkListOpts d
    match env.allPages listOpts with
    | Except.error err => (d, diagErrorf ("Unable to retrieve trunks: " ++ err))
    | Except.ok pages =>
      match env.extractTrunks pages with
      | Except.error err => (d, diagErrorf ("Unable to extract trunks: " ++ err))
      | Except.ok allTrunks =>
        if allTrunks.length < 1 then
          (d, diagErrorf trunkNoResultsMsg)
        else if allTrunks.length > 1 then
          (d, diagErrorf trunkManyResultsMsg)
        else
          match allTrunks with
          | trunk :: _ => trunkPopulate env d trunk
          | [] => (d, [])

/-! ## Sub-net pool acceptance checks -/

/-- The struct `terraform.InstanceState`, as far as the checks read it. -/
structure InstanceState where
  ID : String
  Attributes : GoMap String
  deriving DecidableEq, Repr

/-- The struct `terraform.ResourceState`, as far as the checks read it. -/
structure ResourceState where
  Type_ : String
  Primary : InstanceState
  deriving DecidableEq, Repr

/-- The struct `terraform.State`: the resources of the root module by name. Ranging over
the Go map visits the entries in some order; here it is the order of the list. -/
structure State where
  Resources : GoMap ResourceState
  deriving DecidableEq, Repr

/-- The struct `subnetpools.SubnetPool`, as far as the checks read it. -/
structure SubnetPool where
  ID : String
  Name : String
  Description : String
  Prefixes : List String
  deriving DecidableEq, Repr

/-- What the sub-net pool checks get from outside: the outcome of
`config.NetworkingV2Client` and of `subnetpools.Get(...).Extract()` for an ID. -/
structure SubnetPoolEnv where
  clientErr : Option String
  get : String → Except String SubnetPool

/-- The loop of lines 112-121 over the resources of the root module. -/
def subnetPoolDestroyLoop (env : SubnetPoolEnv) : List (String × ResourceState) → Option String
  | [] => none
  | (_, rs) :: rest =>
    if rs.Type_ ≠ "openstack_networking_subnetpool_v2" then
      subnetPoolDestroyLoop env rest
    else
      match env.get rs.Primary.ID with
      | Except.ok _ => some "Subnetpool still exists"
      | Except.error _ => subnetPoolDestroyLoop env rest

/-- The check `testAccCheckNetworkingV2SubnetPoolDestroy`: `none` is the Go `nil` error,
`some msg` an error with that message. -/
def testAccCheckNetworkingV2SubnetPoolDestroy (env : SubnetPoolEnv) (s : State) : Option String :=
  match env.clientErr with
  | some err => some ("Error creating OpenStack networking client: " ++ err)
  | none => subnetPoolDestroyLoop env s.Resources.entries

/-- The Go expression `m[k]` on a `map[string]string`: a missing key reads as `""`. -/
def GoMap.index (m : GoMap String) (k : String) : String := (m.get k).getD ""

/-- The call `fmt.Sprintf("prefixes.%d", i)`. -/
def prefixKey (i : Nat) : String := "prefixes." ++ toString i

/-- The loop of lines 138-142 over the remote prefixes, started at index `i`. -/
def prefixesLoop (attributes : GoMap String) : Nat → List String → Option String
  | _, [] => none
  | i, pfx :: rest =>
    if pfx ≠ attributes.index (prefixKey i) then
      some "prefixes list elements or order is not consistent"
    else
      prefixesLoop attributes (i + 1) rest

/-- The check `testAccCheckNetworkingV2SubnetPoolPrefixesConsistency`. -/
def testAccCheckNetworkingV2SubnetPoolPrefixesConsistency (n : String) (subnetpool : SubnetPool)
    (s : State) : Option String :=
  match s.Resources.get n with
  | none => some ("Not found: " ++ n)
  | some rs =>
    if rs.Primary.ID = "" then
      some "No ID is set"
    else
      prefixesLoop rs.Primary.Attributes 0 subnetpool.Prefixes

/-- How Terraform keeps a list attribute `prefixes` in the flat attribute map of an
instance: the count under `prefixes.#` and element `i` under `prefixes.i`. -/
def flatPrefixesFrom : Nat → List String → List (String × String)
  | _, [] => []
  | i, pfx :: rest => (prefixKey i, pfx) :: flatPrefixesFrom (i + 1) rest

/-- The flat attribute map of an instance whose only attribute is the list `prefixes`. -/
def flatPrefixes (prefixes : List String) : GoMap String :=
  ("prefixes.#", toString prefixes.length) :: flatPrefixesFrom 0 prefixes

/-! ## What a configuration says -/

/-- The string an attribute is configured with; `""` when it is not set. -/
def ResourceData.configString (d : ResourceData) (key : String) : String :=
  match d.config.get key with
  | some (Value.str s) => s
  | _ => ""

/-- The boolean an attribute is configured with; `none` when it is not set. -/
def ResourceData.configBool (d : ResourceData) (key : String) : Option Bool :=
  match d.config.get key with
  | some (Value.bool b) => some b
  | _ => none

/-- The configured `tags`; empty when there are none. -/
def ResourceData.configTags (d : ResourceData) : List String :=
  match d.config.get "tags" with
  | some (Value.strs l) => l
  | _ => []

/-- A configuration that sets `admin_state_up = false` and nothing else. -/
def adminDownData : ResourceData :=
  { config := GoMap.empty.set "admin_state_up" (Value.bool false), id := "", state := GoMap.empty }

/-- A configuration of the router data source that sets every filter. -/
def fullRouterData : ResourceData :=
  { config :=
      [("router_id", Value.str "r-1"), ("name", Value.str "router_1"),
       ("description", Value.str "edge"), ("admin_state_up", Value.bool false),
       ("distributed", Value.bool true), ("status", Value.str "ACTIVE"),
       ("tenant_id", Value.str "t-1"), ("tags", Value.strs ["blue", "green"])]
    id := ""
    state := GoMap.empty }

/-! ## Concrete sub-net pool inputs -/

/-- A state with one sub-net pool, whose prefixes are those of the acceptance test, and
one network. -/
def sampleState : State :=
  { Resources :=
      (GoMap.empty.set "openstack_networking_subnetpool_v2.subnetpool_1"
        { Type_ := "openstack_networking_subnetpool_v2"
          Primary :=
            { ID := "pool-1", Attributes := flatPrefixes ["10.10.0.0/16", "10.11.11.0/24"] } }).set
        "openstack_networking_network_v2.network_1"
        { Type_ := "openstack_networking_network_v2"
          Primary := { ID := "net-1", Attributes := GoMap.empty } } }

/-- A remote pool that has only the first of the two prefixes. -/
def shortPool : SubnetPool :=
  { ID := "pool-1", Name := "subnetpool_1", Description := "", Prefixes := ["10.10.0.0/16"] }

/-- A remote pool with the two prefixes of the acceptance test. -/
def samplePool : SubnetPool :=
  { ID := "pool-1"
    Name := "subnetpool_1"
    Description := ""
    Prefixes := ["10.10.0.0/16", "10.11.11.0/24"] }

/-- A remote pool with the two prefixes in the other order. -/
def swappedPool : SubnetPool :=
  { ID := "pool-1"
    Name := "subnetpool_1"
    Description := ""
    Prefixes := ["10.11.11.0/24", "10.10.0.0/16"] }

/-- A remote side on which no pool is left: every look-up answers "not found". -/
def goneEnv : SubnetPoolEnv :=
  { clientErr := none, get := fun _ => Except.error "Resource not found" }

/-! ## Reading messages -/

/-- The call `strings.HasPrefix(s, pre)`. -/
def hasPrefix (s pre : String) : Bool := pre.toList.isPrefixOf s.toList

/-- The call `strings.HasSuffix(s, suf)`. -/
def hasSuffix (s suf : String) : Bool := suf.toList.isSuffixOf s.toList

/-! ## Concrete inputs -/

/-- A resource data with an empty configuration and nothing written yet. -/
def sampleData : ResourceData := { config := GoMap.empty, id := "", state := GoMap.empty }

/-- A router with an external gateway holding two fixed IPs. -/
def sampleRouter : Router :=
  { Status := "ACTIVE"
    GatewayInfo :=
      { NetworkID := "net-1"
        EnableSNAT := some true
        ExternalFixedIPs :=
          [{ IPAddress := "203.0.113.5", SubnetID := "subnet-a" },
           { IPAddress := "203.0.113.6", SubnetID := "subnet-b" }]
        QoSPolicyID := "" }
    AdminStateUp := true
    Distributed := false
    Name := "router_1"
    Description := ""
    ID := "r-1"
    TenantID := "t-1"
    ProjectID := "t-1"
    Routes := []
    AvailabilityZoneHints := []
    Tags := [] }

/-- A remote side that answers every router query with the list `rs`. -/
def sampleRouterEnv (rs : List Router) : RouterEnv Unit :=
  { clientErr := none
    getRegion := fun _ => "RegionOne"
    allPages := fun _ => Except.ok ()
    extractRouters := fun _ => Except.ok rs
    expandRoutes := fun _ => Value.strMaps (some [])
    setErr := fun _ _ => none }

/-- A trunk with two sub-ports. -/
def sampleTrunk : Trunk :=
  { AdminStateUp := true
    Description := ""
    ID := "t-1"
    Name := "trunk_1"
    PortID := "parent-1"
    ProjectID := "p-1"
    TenantID := "p-1"
    Status := "ACTIVE"
    Subports :=
      [{ SegmentationID := 100, SegmentationType := "vlan", PortID := "port-a" },
       { SegmentationID := 200, SegmentationType := "vlan", PortID := "port-b" }]
    Tags := [] }

/-- A remote side that answers every trunk query with the list `ts`. -/
def sampleTrunkEnv (ts : List Trunk) : TrunkEnv Unit :=
  { clientErr := none
    getRegion := fun _ => "RegionOne"
    allPages := fun _ => Except.ok ()
    extractTrunks := fun _ => Except.ok ts
    setErr := fun _ _ => none }

/-! ## Router data source: results -/

/-- C1. Router read: when the client is created and listing and extraction succeed, the
read returns no diagnostics exactly when one router matched; no match gives the error
"No Router found", two or more give "More than one Router found". -/
theorem router_read_cardinality {Pages : Type} (env : RouterEnv Pages) (d : ResourceData)
    (pages : Pages) (allRouters : List Router)
    (hclient : env.clientErr = none)
    (hlist : env.allPages (routerListOpts d) = Except.ok pages)
    (hextract : env.extractRouters pages = Except.ok allRouters) :
    ((dataSourceNetworkingRouterV2Read env d).2 = [] ↔ allRouters.length = 1) ∧
    (allRouters.length = 0 →
      (dataSourceNetworkingRouterV2Read env d).2 = diagErrorf "No Router found") ∧
    (2 ≤ allRouters.length →
      (dataSourceNetworkingRouterV2Read env d).2 = diagErrorf "More than one Router found") := by
  simp only [dataSourceNetworkingRouterV2Read, hclient, hlist, hextract]
  match allRouters with
  | [] => simp [diagErrorf]
  | [r] => simp
  | r1 :: r2 :: rest => simp [diagErrorf]

/-- Witness of C1 on a remote side that returns one router. -/
theorem router_read_cardinality_witness :
    ((sampleRouterEnv [sampleRouter]).clientErr = none ∧
      (sampleRouterEnv [sampleRouter]).allPages (routerListOpts sampleData) = Except.ok () ∧
      (sampleRouterEnv [sampleRouter]).extractRouters () = Except.ok [sampleRouter]) ∧
    (((dataSourceNetworkingRouterV2Read (sampleRouterEnv [sampleRouter]) sampleData).2 = [] ↔
        [sampleRouter].length = 1) ∧
      ([sampleRouter].length = 0 →
        (dataSourceNetworkingRouterV2Read (sampleRouterEnv [sampleRouter]) sampleData).2 =
          diagErrorf "No Router found") ∧
      (2 ≤ [sampleRouter].length →
        (dataSourceNetworkingRouterV2Read (sampleRouterEnv [sampleRouter]) sampleData).2 =
          diagErrorf "More than one Router found")) :=
  ⟨⟨rfl, rfl, rfl⟩,
    router_read_cardinality (sampleRouterEnv [sampleRouter]) sampleData () [sampleRouter]
      rfl rfl rfl⟩

/-! ## Trunk data source: results -/

/-- C2. Trunk read: when the client is created, listing and extraction succeed and
`sub_port` can be stored, the read returns no diagnostics exactly when one trunk matched;
no match and two or more matches each give one error diagnostic, with different
messages. -/
theorem trunk_read_cardinality {Pages : Type} (env : TrunkEnv Pages) (d : ResourceData)
    (pages : Pages) (allTrunks : List Trunk)
    (hclient : env.clientErr = none)
    (hlist : env.allPages (trunkListOpts d) = Except.ok pages)
    (hextract : env.extractTrunks pages = Except.ok allTrunks)
    (hset : ∀ v, env.setErr "sub_port" v = none) :
    ((dataSourceNetworkingTrunkV2Read env d).2 = [] ↔ allTrunks.length = 1) ∧
    (allTrunks.length = 0 →
      (dataSourceNetworkingTrunkV2Read env d).2 = diagErrorf trunkNoResultsMsg) ∧
    (2 ≤ allTrunks.length →
      (dataSourceNetworkingTrunkV2Read env d).2 = diagErrorf trunkManyResultsMsg) ∧
    trunkNoResultsMsg ≠ trunkManyResultsMsg := by
  simp only [dataSourceNetworkingTrunkV2Read, hclient, hlist, hextract]
  refine ⟨?_, ?_, ?_, by decide⟩
  · match allTrunks with
    | [] => simp [diagErrorf]
    | [t] => simp [trunkPopulate, ResourceData.set, hset]
    | t1 :: t2 :: rest => simp [diagErrorf]
  · intro h
    simp [h]
  · intro h
    have h1 : ¬ allTrunks.length < 1 := by omega
    have h2 : allTrunks.length > 1 := by omega
    simp [h1, h2]

/-- Witness of C2 on a remote side that returns one trunk. -/
theorem trunk_read_cardinality_witness :
    ((sampleTrunkEnv [sampleTrunk]).clientErr = none ∧
      (sampleTrunkEnv [sampleTrunk]).allPages (trunkListOpts sampleData) = Except.ok () ∧
      (sampleTrunkEnv [sampleTrunk]).extractTrunks () = Except.ok [sampleTrunk] ∧
      (∀ v, (sampleTrunkEnv [sampleTrunk]).setErr "sub_port" v = none)) ∧
    (((dataSourceNetworkingTrunkV2Read (sampleTrunkEnv [sampleTrunk]) sampleData).2 = [] ↔
        [sampleTrunk].length = 1) ∧
      ([sampleTrunk].length = 0 →
        (dataSourceNetworkingTrunkV2Read (sampleTrunkEnv [sampleTrunk]) sampleData).2 =
          diagErrorf trunkNoResultsMsg) ∧
      (2 ≤ [sampleTrunk].length →
        (dataSourceNetworkingTrunkV2Read (sampleTrunkEnv [sampleTrunk]) sampleData).2 =
          diagErrorf trunkManyResultsMsg) ∧
      trunkNoResultsMsg ≠ trunkManyResultsMsg) :=
  ⟨⟨rfl, rfl, rfl, fun _ => rfl⟩,
    trunk_read_cardinality (sampleTrunkEnv [sampleTrunk]) sampleData () [sampleTrunk]
      rfl rfl rfl (fun _ => rfl)⟩

/-! ## Wording of the cardinality errors -/

/-- C3, as stated, fails on the trunk read: with no match and with two matches its
message neither begins with "No " / "More than one " nor ends with " found". -/
theorem trunk_cardinality_messages_not_found_style :
    (¬ ∃ msg, (dataSourceNetworkingTrunkV2Read (sampleTrunkEnv []) sampleData).2 =
          diagErrorf msg ∧ hasPrefix msg "No " = true ∧ hasSuffix msg " found" = true) ∧
    (¬ ∃ msg, (dataSourceNetworkingTrunkV2Read (sampleTrunkEnv [sampleTrunk, sampleTrunk])
          sampleData).2 = diagErrorf msg ∧
        hasPrefix msg "More than one " = true ∧ hasSuffix msg " found" = true) := by
  constructor
  · rintro ⟨msg, h, hp, _⟩
    have h0 : (dataSourceNetworkingTrunkV2Read (sampleTrunkEnv []) sampleData).2 =
        diagErrorf trunkNoResultsMsg := rfl
    rw [h0] at h
    simp only [diagErrorf, List.cons.injEq, Diagnostic.mk.injEq, true_and, and_true] at h
    subst h
    revert hp
    decide
  · rintro ⟨msg, h, hp, _⟩
    have h0 : (dataSourceNetworkingTrunkV2Read (sampleTrunkEnv [sampleTrunk, sampleTrunk])
        sampleData).2 = diagErrorf trunkManyResultsMsg := rfl
    rw [h0] at h
    simp only [diagErrorf, List.cons.injEq, Diagnostic.mk.injEq, true_and, and_true] at h
    subst h
    revert hp
    decide

/-- C3, amended. With no match the router read fails with a message that begins with
"No " and ends with " found", with two or more with one that begins with
"More than one " and ends with " found"; the trunk read fails with "Your query returned
no results. Please change your search criteria and try again." and "Your query returned
more than one result. Please try a more specific search criteria". -/
theorem cardinality_messages {RPages TPages : Type} (renv : RouterEnv RPages)
    (tenv : TrunkEnv TPages) (d : ResourceData) (rpages : RPages) (tpages : TPages)
    (allRouters : List Router) (allTrunks : List Trunk)
    (hrclient : renv.clientErr = none)
    (hrlist : renv.allPages (routerListOpts d) = Except.ok rpages)
    (hrextract : renv.extractRouters rpages = Except.ok allRouters)
    (htclient : tenv.clientErr = none)
    (htlist : tenv.allPages (trunkListOpts d) = Except.ok tpages)
    (htextract : tenv.extractTrunks tpages = Except.ok allTrunks) :
    (allRouters.length = 0 →
      ∃ msg, (dataSourceNetworkingRouterV2Read renv d).2 = diagErrorf msg ∧
        hasPrefix msg "No " = true ∧ hasSuffix msg " found" = true) ∧
    (2 ≤ allRouters.length →
      ∃ msg, (dataSourceNetworkingRouterV2Read renv d).2 = diagErrorf msg ∧
        hasPrefix msg "More than one " = true ∧ hasSuffix msg " found" = true) ∧
    (allTrunks.length = 0 →
      (dataSourceNetworkingTrunkV2Read tenv d).2 = diagErrorf
        "Your query returned no results. Please change your search criteria and try again.") ∧
    (2 ≤ allTrunks.length →
      (dataSourceNetworkingTrunkV2Read tenv d).2 = diagErrorf
        "Your query returned more than one result. Please try a more specific search criteria") := by
  simp only [dataSourceNetworkingRouterV2Read, dataSourceNetworkingTrunkV2Read, hrclient,
    hrlist, hrextract, htclient, htlist, htextract]
  refine ⟨?_, ?_, ?_, ?_⟩
  · intro h
    refine ⟨"No Router found", ?_, by decide, by decide⟩
    simp [h]
  · intro h
    refine ⟨"More than one Router found", ?_, by decide, by decide⟩
    have h1 : ¬ allRouters.length < 1 := by omega
    have h2 : allRouters.length > 1 := by omega
    simp [h1, h2]
  · intro h
    have hmsg : trunkNoResultsMsg =
        "Your query returned no results. Please change your search criteria and try again." := by
      decide
    simp [h, hmsg]
  · intro h
    have h1 : ¬ allTrunks.length < 1 := by omega
    have h2 : allTrunks.length > 1 := by omega
    have hmsg : trunkManyResultsMsg =
        "Your query returned more than one result. Please try a more specific search criteria" := by
      decide
    simp [h1, h2, hmsg]

/-- Witness of the amended C3 on remote sides that return nothing. -/
theorem cardinality_messages_witness :
    ((sampleRouterEnv []).clientErr = none ∧
      (sampleRouterEnv []).allPages (routerListOpts sampleData) = Except.ok () ∧
      (sampleRouterEnv []).extractRouters () = Except.ok [] ∧
      (sampleTrunkEnv []).clientErr = none ∧
      (sampleTrunkEnv []).allPages (trunkListOpts sampleData) = Except.ok () ∧
      (sampleTrunkEnv []).extractTrunks () = Except.ok []) ∧
    (∃ msg, (dataSourceNetworkingRouterV2Read (sampleRouterEnv []) sampleData).2 =
        diagErrorf msg ∧ hasPrefix msg "No " = true ∧ hasSuffix msg " found" = true) ∧
    (dataSourceNetworkingTrunkV2Read (sampleTrunkEnv []) sampleData).2 = diagErrorf
      "Your query returned no results. Please change your search criteria and try again." :=
  ⟨⟨rfl, rfl, rfl, rfl, rfl, rfl⟩,
    (cardinality_messages (sampleRouterEnv []) (sampleTrunkEnv []) sampleData () () [] []
      rfl rfl rfl rfl rfl rfl).1 rfl,
    (cardinality_messages (sampleRouterEnv []) (sampleTrunkEnv []) sampleData () () [] []
      rfl rfl rfl rfl rfl rfl).2.2.1 rfl⟩

/-! ## Failed reads leave the resource data alone -/

/-- C10. When a read fails because the client could not be created, because listing or
extraction failed, or because the number of matches is not one, it returns diagnostics
and the resource data is what it was before the call: no ID set, no attribute written.
This holds for the router read and for the trunk read. -/
theorem read_failure_leaves_data {RPages TPages : Type} (renv : RouterEnv RPages)
    (tenv : TrunkEnv TPages) (d : ResourceData) :
    ((renv.clientErr ≠ none ∨
        (∃ e, renv.allPages (routerListOpts d) = Except.error e) ∨
        (∃ pages e, renv.allPages (routerListOpts d) = Except.ok pages ∧
          renv.extractRouters pages = Except.error e) ∨
        (∃ pages rs, renv.allPages (routerListOpts d) = Except.ok pages ∧
          renv.extractRouters pages = Except.ok rs ∧ rs.length ≠ 1)) →
      (dataSourceNetworkingRouterV2Read renv d).1 = d ∧
        (dataSourceNetworkingRouterV2Read renv d).2 ≠ []) ∧
    ((tenv.clientErr ≠ none ∨
        (∃ e, tenv.allPages (trunkListOpts d) = Except.error e) ∨
        (∃ pages e, tenv.allPages (trunkListOpts d) = Except.ok pages ∧
          tenv.extractTrunks pages = Except.error e) ∨
        (∃ pages ts, tenv.allPages (trunkListOpts d) = Except.ok pages ∧
          tenv.extractTrunks pages = Except.ok ts ∧ ts.length ≠ 1)) →
      (dataSourceNetworkingTrunkV2Read tenv d).1 = d ∧
        (dataSourceNetworkingTrunkV2Read tenv d).2 ≠ []) := by
  constructor
  · intro h
    unfold dataSourceNetworkingRouterV2Read
    cases hc : renv.clientErr with
    | some err => simp [diagErrorf]
    | none =>
      rcases h with h | ⟨e, h⟩ | ⟨pages, e, h, h'⟩ | ⟨pages, rs, h, h', hlen⟩
      · exact absurd hc h
      · simp [h, diagErrorf]
      · simp [h, h', diagErrorf]
      · match rs, hlen with
        | [], _ => simp [h, h', diagErrorf]
        | [r], hlen => simp at hlen
        | r1 :: r2 :: rest, _ => simp [h, h', diagErrorf]
  · intro h
    unfold dataSourceNetworkingTrunkV2Read
    cases hc : tenv.clientErr with
    | some err => simp [diagErrorf]
    | none =>
      rcases h with h | ⟨e, h⟩ | ⟨pages, e, h, h'⟩ | ⟨pages, ts, h, h', hlen⟩
      · exact absurd hc h
      · simp [h, diagErrorf]
      · simp [h, h', diagErrorf]
      · match ts, hlen with
        | [], _ => simp [h, h', diagErrorf]
        | [t], hlen => simp at hlen
        | t1 :: t2 :: rest, _ => simp [h, h', diagErrorf]

/-- Witness of C10: a router query with two matches and a trunk query with none. -/
theorem read_failure_leaves_data_witness :
    ((∃ pages rs, (sampleRouterEnv [sampleRouter, sampleRouter]).allPages
          (routerListOpts sampleData) = Except.ok pages ∧
        (sampleRouterEnv [sampleRouter, sampleRouter]).extractRouters pages = Except.ok rs ∧
        rs.length ≠ 1) ∧
      (∃ pages ts, (sampleTrunkEnv []).allPages (trunkListOpts sampleData) = Except.ok pages ∧
        (sampleTrunkEnv []).extractTrunks pages = Except.ok ts ∧ ts.length ≠ 1)) ∧
    ((dataSourceNetworkingRouterV2Read (sampleRouterEnv [sampleRouter, sampleRouter])
          sampleData).1 = sampleData ∧
      (dataSourceNetworkingRouterV2Read (sampleRouterEnv [sampleRouter, sampleRouter])
          sampleData).2 ≠ []) ∧
    ((dataSourceNetworkingTrunkV2Read (sampleTrunkEnv []) sampleData).1 = sampleData ∧
      (dataSourceNetworkingTrunkV2Read (sampleTrunkEnv []) sampleData).2 ≠ []) :=
  ⟨⟨⟨(), [sampleRouter, sampleRouter], rfl, rfl, by decide⟩, ⟨(), [], rfl, rfl, by decide⟩⟩,
    (read_failure_leaves_data (sampleRouterEnv [sampleRouter, sampleRouter]) (sampleTrunkEnv [])
      sampleData).1
      (Or.inr (Or.inr (Or.inr ⟨(), [sampleRouter, sampleRouter], rfl, rfl, by decide⟩))),
    (read_failure_leaves_data (sampleRouterEnv [sampleRouter, sampleRouter]) (sampleTrunkEnv [])
      sampleData).2
      (Or.inr (Or.inr (Or.inr ⟨(), [], rfl, rfl, by decide⟩)))⟩

/-! ## List options -/

/-- `d.GetOk` on a string attribute, in terms of the configured string. -/
theorem getOkString_eq (d : ResourceData) (key : String) :
    d.getOkString key = (d.configString key, decide (d.configString key ≠ "")) := by
  unfold ResourceData.getOkString ResourceData.configString
  split <;> simp_all

/-- `getOkExists` in terms of the configured boolean. -/
theorem getOkExists_eq (d : ResourceData) (key : String) :
    getOkExists d key = ((d.configBool key).getD false, (d.configBool key).isSome) := by
  unfold getOkExists ResourceData.configBool
  split <;> simp_all

/-- `d.GetOk` on a boolean attribute, in terms of the configured boolean: `ok` only for a
configured `true`. -/
theorem getOkBool_eq (d : ResourceData) (key : String) :
    d.getOkBool key = ((d.configBool key).getD false, (d.configBool key).getD false) := by
  unfold ResourceData.getOkBool ResourceData.configBool
  split <;> simp_all

/-- The list options of the trunk read, field by field: `AdminStateUp` is set only for a
configured `true`. -/
theorem trunk_list_opts_fields (d : ResourceData) :
    trunkListOpts d =
      { Name := d.configString "name"
        Description := d.configString "description"
        ID := d.configString "trunk_id"
        PortID := d.configString "port_id"
        AdminStateUp := if d.configBool "admin_state_up" = some true then some true else none
        ProjectID := d.configString "project_id"
        Status := d.configString "status"
        Tags := stringsJoin d.configTags "," } := by
  have htags : networkingV2AttributesTags d = d.configTags := rfl
  unfold trunkListOpts
  lift_lets
  intro l0 l1 l2 l3 l4 l5 l6 l7 tags
  have e1 : l1 =
        { Name := d.configString "name" } := by
      by_cases h : d.configString "name" = "" <;> simp [l1, l0, getOkString_eq, h]
  have e2 : l2 =
        { Name := d.configString "name"
          Description := d.configString "description" } := by
      by_cases h : d.configString "description" = "" <;> simp [l2, e1, getOkString_eq, h]
  have e3 : l3 =
        { Name := d.configString "name"
          Description := d.configString "description"
          ID := d.configString "trunk_id" } := by
      by_cases h : d.configString "trunk_id" = "" <;> simp [l3, e2, getOkString_eq, h]
  have e4 : l4 =
        { Name := d.configString "name"
          Description := d.configString "description"
          ID := d.configString "trunk_id"
          PortID := d.configString "port_id" } := by
      by_cases h : d.configString "port_id" = "" <;> simp [l4, e3, getOkString_eq, h]
  have e5 : l5 =
        { Name := d.configString "name"
          Description := d.configString "description"
          ID := d.configString "trunk_id"
          PortID := d.configString "port_id"
          AdminStateUp := if d.configBool "admin_state_up" = some true then some true else none } := by
      rcases h : d.configBool "admin_state_up" with _ | _ | _ <;>
        simp [l5, e4, getOkBool_eq, h]
  have e6 : l6 =
        { Name := d.configString "name"
          Description := d.configString "description"
          ID := d.configString "trunk_id"
          PortID := d.configString "port_id"
          AdminStateUp := if d.configBool "admin_state_up" = some true then some true else none
          ProjectID := d.configString "project_id" } := by
      by_cases h : d.configString "project_id" = "" <;> simp [l6, e5, getOkString_eq, h]
  have e7 : l7 =
        { Name := d.configString "name"
          Description := d.configString "description"
          ID := d.configString "trunk_id"
          PortID := d.configString "port_id"
          AdminStateUp := if d.configBool "admin_state_up" = some true then some true else none
          ProjectID := d.configString "project_id"
          Status := d.configString "status" } := by
      by_cases h : d.configString "status" = "" <;> simp [l7, e6, getOkString_eq, h]
  have et : tags = d.configTags := htags
  clear_value l0 l1 l2 l3 l4 l5 l6 l7 tags
  subst et e7
  cases h : d.configTags with
  | nil => simp [stringsJoin, String.intercalate]
  | cons t ts => simp

/-- C4 fails on the code: with `admin_state_up = false` configured, the trunk read sends
list options whose `AdminStateUp` is nil, while the router read, on the same
configuration, sends a pointer to `false`. -/
theorem trunk_admin_state_up_false_dropped :
    adminDownData.config.get "admin_state_up" = some (Value.bool false) ∧
    (trunkListOpts adminDownData).AdminStateUp = none ∧
    (routerListOpts adminDownData).AdminStateUp = some false := by
  decide

/-- C5. The router read builds its list options field by field: the five string filters
carry the configured strings (`""` when unset), `AdminStateUp` and `Distributed` point at
the configured boolean when one is set (also `false`) and are nil otherwise, `Tags` is the
configured tags joined with "," (empty without tags), and every other field keeps its
zero value. -/
theorem router_list_opts_fields (d : ResourceData) :
    routerListOpts d =
      { ID := d.configString "router_id"
        Name := d.configString "name"
        Description := d.configString "description"
        AdminStateUp := d.configBool "admin_state_up"
        Distributed := d.configBool "distributed"
        Status := d.configString "status"
        TenantID := d.configString "tenant_id"
        ProjectID := ""
        Limit := 0
        Marker := ""
        SortKey := ""
        SortDir := ""
        Tags := stringsJoin d.configTags ","
        TagsAny := ""
        NotTags := ""
        NotTagsAny := "" } ∧
    (d.configTags = [] → (routerListOpts d).Tags = "") := by
  have htags : networkingV2AttributesTags d = d.configTags := rfl
  have key : routerListOpts d =
      { ID := d.configString "router_id"
        Name := d.configString "name"
        Description := d.configString "description"
        AdminStateUp := d.configBool "admin_state_up"
        Distributed := d.configBool "distributed"
        Status := d.configString "status"
        TenantID := d.configString "tenant_id"
        Tags := stringsJoin d.configTags "," } := by
    unfold routerListOpts
    lift_lets
    intro l0 l1 l2 l3 l4 l5 l6 l7 tags
    have e1 : l1 =
        { ID := d.configString "router_id" } := by
      by_cases h : d.configString "router_id" = "" <;> simp [l1, l0, getOkString_eq, h]
    have e2 : l2 =
        { ID := d.configString "router_id"
          Name := d.configString "name" } := by
      by_cases h : d.configString "name" = "" <;> simp [l2, e1, getOkString_eq, h]
    have e3 : l3 =
        { ID := d.configString "router_id"
          Name := d.configString "name"
          Description := d.configString "description" } := by
      by_cases h : d.configString "description" = "" <;> simp [l3, e2, getOkString_eq, h]
    have e4 : l4 =
        { ID := d.configString "router_id"
          Name := d.configString "name"
          Description := d.configString "description"
          AdminStateUp := d.configBool "admin_state_up" } := by
      cases h : d.configBool "admin_state_up" <;> simp [l4, e3, getOkExists_eq, h]
    have e5 : l5 =
        { ID := d.configString "router_id"
          Name := d.configString "name"
          Description := d.configString "description"
          AdminStateUp := d.configBool "admin_state_up"
          Distributed := d.configBool "distributed" } := by
      cases h : d.configBool "distributed" <;> simp [l5, e4, getOkExists_eq, h]
    have e6 : l6 =
        { ID := d.configString "router_id"
          Name := d.configString "name"
          Description := d.configString "description"
          AdminStateUp := d.configBool "admin_state_up"
          Distributed := d.configBool "distributed"
          Status := d.configString "status" } := by
      by_cases h : d.configString "status" = "" <;> simp [l6, e5, getOkString_eq, h]
    have e7 : l7 =
        { ID := d.configString "router_id"
          Name := d.configString "name"
          Description := d.configString "description"
          AdminStateUp := d.configBool "admin_state_up"
          Distributed := d.configBool "distributed"
          Status := d.configString "status"
          TenantID := d.configString "tenant_id" } := by
      by_cases h : d.configString "tenant_id" = "" <;> simp [l7, e6, getOkString_eq, h]
    have et : tags = d.configTags := htags
    clear_value l0 l1 l2 l3 l4 l5 l6 l7 tags
    subst et e7
    cases h : d.configTags with
    | nil => simp [stringsJoin, String.intercalate]
    | cons t ts => simp
  refine ⟨key, ?_⟩
  intro h
  rw [key, h]
  rfl

/-- Witness of C5 on a configuration that sets every filter, `admin_state_up` to false. -/
theorem router_list_opts_fields_witness :
    routerListOpts fullRouterData =
      { ID := "r-1"
        Name := "router_1"
        Description := "edge"
        AdminStateUp := some false
        Distributed := some true
        Status := "ACTIVE"
        TenantID := "t-1"
        Tags := "blue,green" } :=
  (router_list_opts_fields fullRouterData).1

/-! ## Sub-net pool checks -/

/-- The destroy loop answers `nil` or "Subnetpool still exists", and `nil` exactly when
every resource of the pool type fails to be found. -/
theorem subnetPoolDestroyLoop_spec (env : SubnetPoolEnv) (l : List (String × ResourceState)) :
    (subnetPoolDestroyLoop env l = none ↔
      ∀ p ∈ l, p.2.Type_ = "openstack_networking_subnetpool_v2" →
        ∃ e, env.get p.2.Primary.ID = Except.error e) ∧
    (subnetPoolDestroyLoop env l = none ∨
      subnetPoolDestroyLoop env l = some "Subnetpool still exists") := by
  induction l with
  | nil => simp [subnetPoolDestroyLoop]
  | cons p rest ih =>
    obtain ⟨name, rs⟩ := p
    by_cases ht : rs.Type_ = "openstack_networking_subnetpool_v2"
    · cases hg : env.get rs.Primary.ID with
      | ok pool => simp [subnetPoolDestroyLoop, ht, hg]
      | error e => simpa [subnetPoolDestroyLoop, ht, hg] using ih
    · simpa [subnetPoolDestroyLoop, ht] using ih

/-- C8 fails on the code: the state lists the prefixes "10.10.0.0/16", "10.11.11.0/24",
the remote pool only "10.10.0.0/16", and the consistency check still returns no error. -/
theorem prefixes_consistency_accepts_shorter_remote :
    (∃ rs, sampleState.Resources.get "openstack_networking_subnetpool_v2.subnetpool_1" = some rs ∧
      rs.Primary.ID ≠ "" ∧
      rs.Primary.Attributes = flatPrefixes ["10.10.0.0/16", "10.11.11.0/24"]) ∧
    shortPool.Prefixes = ["10.10.0.0/16"] ∧
    shortPool.Prefixes ≠ ["10.10.0.0/16", "10.11.11.0/24"] ∧
    testAccCheckNetworkingV2SubnetPoolPrefixesConsistency
      "openstack_networking_subnetpool_v2.subnetpool_1" shortPool sampleState = none := by
  refine ⟨⟨_, rfl, by decide, rfl⟩, rfl, by decide, by decide⟩

/-- The consistency check on the prefixes of the acceptance test: equal lists pass, the
same prefixes in another order are refused. -/
theorem prefixes_consistency_examples :
    testAccCheckNetworkingV2SubnetPoolPrefixesConsistency
      "openstack_networking_subnetpool_v2.subnetpool_1" samplePool sampleState = none ∧
    testAccCheckNetworkingV2SubnetPoolPrefixesConsistency
      "openstack_networking_subnetpool_v2.subnetpool_1" swappedPool sampleState =
      some "prefixes list elements or order is not consistent" := by
  decide

/-- C9. Destroy check: when the client is created, the check returns no error exactly
when the look-up of every resource of type openstack_networking_subnetpool_v2 fails; if
one such look-up succeeds the error is "Subnetpool still exists"; two states with the
same resources of that type get the same answer, whatever else they hold. -/
theorem subnetpool_destroy_check (env : SubnetPoolEnv) (s : State)
    (hclient : env.clientErr = none) :
    (testAccCheckNetworkingV2SubnetPoolDestroy env s = none ↔
      ∀ p ∈ s.Resources.entries, p.2.Type_ = "openstack_networking_subnetpool_v2" →
        ∃ e, env.get p.2.Primary.ID = Except.error e) ∧
    ((∃ p ∈ s.Resources.entries, p.2.Type_ = "openstack_networking_subnetpool_v2" ∧
        ∃ pool, env.get p.2.Primary.ID = Except.ok pool) →
      testAccCheckNetworkingV2SubnetPoolDestroy env s = some "Subnetpool still exists") ∧
    (∀ s' : State,
      (∀ p, p.2.Type_ = "openstack_networking_subnetpool_v2" →
        (p ∈ s'.Resources.entries ↔ p ∈ s.Resources.entries)) →
      testAccCheckNetworkingV2SubnetPoolDestroy env s' =
        testAccCheckNetworkingV2SubnetPoolDestroy env s) := by
  simp only [testAccCheckNetworkingV2SubnetPoolDestroy, hclient]
  have hs := subnetPoolDestroyLoop_spec env s.Resources.entries
  refine ⟨hs.1, ?_, ?_⟩
  · rintro ⟨p, hp, ht, pool, hpool⟩
    rcases hs.2 with h | h
    · obtain ⟨e, he⟩ := hs.1.mp h p hp ht
      rw [hpool] at he
      cases he
    · exact h
  · intro s' hsame
    have hs' := subnetPoolDestroyLoop_spec env s'.Resources.entries
    have hiff : subnetPoolDestroyLoop env s'.Resources.entries = none ↔
        subnetPoolDestroyLoop env s.Resources.entries = none := by
      rw [hs'.1, hs.1]
      constructor
      · intro h p hp ht
        exact h p ((hsame p ht).mpr hp) ht
      · intro h p hp ht
        exact h p ((hsame p ht).mp hp) ht
    rcases hs'.2 with h' | h' <;> rcases hs.2 with h | h
    · rw [h', h]
    · rw [hiff, h] at h'
      cases h'
    · rw [← hiff, h'] at h
      cases h
    · rw [h', h]

/-- Witness of C9: the sample state against a remote side with no pool left passes the
check. -/
theorem subnetpool_destroy_check_witness :
    goneEnv.clientErr = none ∧
    testAccCheckNetworkingV2SubnetPoolDestroy goneEnv sampleState = none :=
  ⟨rfl, (subnetpool_destroy_check goneEnv sampleState rfl).1.mpr
    (fun _ _ _ => ⟨"Resource not found", rfl⟩)⟩

/-! ## Flattening of nested lists -/

/-- Looking up the key that was just assigned. -/
theorem GoMap.get_set_self {V : Type} (m : GoMap V) (k : String) (v : V) :
    (m.set k v).get k = some v := by
  induction m with
  | nil => simp [GoMap.set, GoMap.get]
  | cons p rest ih =>
    obtain ⟨k', v'⟩ := p
    by_cases h : k' = k
    · simp [GoMap.set, GoMap.get, h]
    · simp [GoMap.set, GoMap.get, h, ih]

/-- `d.Set` never touches the ID. -/
theorem ResourceData.set_fst_id (setErr : String → Value → Option String) (d : ResourceData)
    (key : String) (value : Value) : (d.set setErr key value).1.id = d.id := by
  unfold ResourceData.set
  split <;> rfl

/-- An accepted `d.Set` stores the value under its key. -/
theorem ResourceData.set_fst_state_get (setErr : String → Value → Option String)
    (d : ResourceData) (key : String) (value : Value) (h : setErr key value = none) :
    (d.set setErr key value).1.state.get key = some value := by
  simp [ResourceData.set, h, GoMap.get_set_self]

/-- The map built for one sub-port has the three keys and nothing else. -/
theorem subport_map_entries (a b : String) (c : Int) :
    (∀ k, ((((GoMap.empty.set "port_id" (Scalar.str a)).set "segmentation_type"
        (Scalar.str b)).set "segmentation_id" (Scalar.int c)).get k).isSome = true ↔
      (k = "port_id" ∨ k = "segmentation_type" ∨ k = "segmentation_id")) ∧
    (((GoMap.empty.set "port_id" (Scalar.str a)).set "segmentation_type"
        (Scalar.str b)).set "segmentation_id" (Scalar.int c)).get "port_id" =
      some (Scalar.str a) ∧
    (((GoMap.empty.set "port_id" (Scalar.str a)).set "segmentation_type"
        (Scalar.str b)).set "segmentation_id" (Scalar.int c)).get "segmentation_type" =
      some (Scalar.str b) ∧
    (((GoMap.empty.set "port_id" (Scalar.str a)).set "segmentation_type"
        (Scalar.str b)).set "segmentation_id" (Scalar.int c)).get "segmentation_id" =
      some (Scalar.int c) := by
  refine ⟨?_, ?_, ?_, ?_⟩
  · intro k
    simp only [GoMap.empty, GoMap.set, GoMap.get]
    by_cases h1 : "port_id" = k
    · simp [h1.symm]
    · by_cases h2 : "segmentation_type" = k
      · simp [h2.symm]
      · by_cases h3 : "segmentation_id" = k
        · simp [h3.symm]
        · simp [h1, h2, h3, Ne.symm h1, Ne.symm h2, Ne.symm h3]
  · simp [GoMap.empty, GoMap.set, GoMap.get]
  · simp [GoMap.empty, GoMap.set, GoMap.get]
  · simp [GoMap.empty, GoMap.set, GoMap.get]

/-- One round of the sub-port loop at the first index not yet filled. -/
theorem trunkSubportStep_at_length (done : List (GoMap Scalar)) (m : GoMap Scalar)
    (todo : List (GoMap Scalar)) (sp : Subport) :
    trunkSubportStep (done ++ m :: todo) done.length sp =
      (done ++ [((GoMap.empty.set "port_id" (Scalar.str sp.PortID)).set "segmentation_type"
        (Scalar.str sp.SegmentationType)).set "segmentation_id" (Scalar.int sp.SegmentationID)])
        ++ todo := by
  have hset : ∀ (x y : GoMap Scalar),
      (done ++ x :: todo).set done.length y = done ++ y :: todo := by
    intro x y
    induction done with
    | nil => rfl
    | cons a rest ih => simp [ih]
  have hget : ∀ (x dflt : GoMap Scalar), (done ++ x :: todo).getD done.length dflt = x := by
    intro x dflt
    induction done with
    | nil => rfl
    | cons a rest ih => simpa using ih
  simp only [trunkSubportStep, hset, hget, List.append_assoc, List.singleton_append]

/-- The sub-port loop fills the slice from left to right. -/
theorem trunkSubportLoop_eq (subs : List Subport) (done : List (GoMap Scalar)) :
    trunkSubportLoop (done ++ List.replicate subs.length GoMap.empty) done.length subs =
      done ++ subs.map (fun sp =>
        ((GoMap.empty.set "port_id" (Scalar.str sp.PortID)).set "segmentation_type"
          (Scalar.str sp.SegmentationType)).set "segmentation_id"
          (Scalar.int sp.SegmentationID)) := by
  induction subs generalizing done with
  | nil => simp [trunkSubportLoop]
  | cons sp rest ih =>
    simp only [List.length_cons, List.replicate_succ, trunkSubportLoop, List.map_cons]
    rw [trunkSubportStep_at_length]
    have := ih (done ++ [((GoMap.empty.set "port_id" (Scalar.str sp.PortID)).set
      "segmentation_type" (Scalar.str sp.SegmentationType)).set "segmentation_id"
      (Scalar.int sp.SegmentationID)])
    simp only [List.length_append, List.length_singleton] at this
    rw [this]
    simp

/-- The flattened sub-ports are the image of the sub-ports, in order. -/
theorem trunkSubports_eq_map (subs : List Subport) :
    trunkSubports subs = subs.map (fun sp =>
      ((GoMap.empty.set "port_id" (Scalar.str sp.PortID)).set "segmentation_type"
        (Scalar.str sp.SegmentationType)).set "segmentation_id"
        (Scalar.int sp.SegmentationID)) := by
  have := trunkSubportLoop_eq subs []
  simpa [trunkSubports] using this

/-- C6. Trunk sub-port flattening: on a read with a single match whose `sub_port` is
stored, the value under `sub_port` is a list as long as `trunk.Subports`, and its `i`-th
element is a map with exactly the keys port_id, segmentation_type and segmentation_id,
holding the PortID, SegmentationType and SegmentationID of the `i`-th sub-port; no
sub-ports give the empty list. -/
theorem trunk_sub_port_flattening {Pages : Type} (env : TrunkEnv Pages) (d : ResourceData)
    (pages : Pages) (trunk : Trunk)
    (hclient : env.clientErr = none)
    (hlist : env.allPages (trunkListOpts d) = Except.ok pages)
    (hextract : env.extractTrunks pages = Except.ok [trunk])
    (hset : ∀ v, env.setErr "sub_port" v = none) :
    ∃ subports : List (GoMap Scalar),
      (dataSourceNetworkingTrunkV2Read env d).1.state.get "sub_port" =
        some (Value.anyMaps subports) ∧
      subports.length = trunk.Subports.length ∧
      (trunk.Subports = [] → subports = []) ∧
      ∀ (i : Nat) (sp : Subport), trunk.Subports[i]? = some sp →
        ∃ m, subports[i]? = some m ∧
          (∀ k, (m.get k).isSome = true ↔
            (k = "port_id" ∨ k = "segmentation_type" ∨ k = "segmentation_id")) ∧
          m.get "port_id" = some (Scalar.str sp.PortID) ∧
          m.get "segmentation_type" = some (Scalar.str sp.SegmentationType) ∧
          m.get "segmentation_id" = some (Scalar.int sp.SegmentationID) := by
  refine ⟨trunkSubports trunk.Subports, ?_, ?_, ?_, ?_⟩
  · simp only [dataSourceNetworkingTrunkV2Read, hclient, hlist, hextract, trunkPopulate,
      ResourceData.set, hset]
    simp [GoMap.get_set_self]
  · simp [trunkSubports_eq_map]
  · intro h
    simp [trunkSubports_eq_map, h]
  · intro i sp hsp
    refine ⟨_, ?_, subport_map_entries sp.PortID sp.SegmentationType sp.SegmentationID⟩
    simp [trunkSubports_eq_map, hsp]

/-- Witness of C6 on a trunk with two sub-ports. -/
theorem trunk_sub_port_flattening_witness :
    ((sampleTrunkEnv [sampleTrunk]).clientErr = none ∧
      (sampleTrunkEnv [sampleTrunk]).allPages (trunkListOpts sampleData) = Except.ok () ∧
      (sampleTrunkEnv [sampleTrunk]).extractTrunks () = Except.ok [sampleTrunk] ∧
      (∀ v, (sampleTrunkEnv [sampleTrunk]).setErr "sub_port" v = none)) ∧
    ∃ subports : List (GoMap Scalar),
      (dataSourceNetworkingTrunkV2Read (sampleTrunkEnv [sampleTrunk]) sampleData).1.state.get
        "sub_port" = some (Value.anyMaps subports) ∧
      subports.length = sampleTrunk.Subports.length ∧
      (sampleTrunk.Subports = [] → subports = []) ∧
      ∀ (i : Nat) (sp : Subport), sampleTrunk.Subports[i]? = some sp →
        ∃ m, subports[i]? = some m ∧
          (∀ k, (m.get k).isSome = true ↔
            (k = "port_id" ∨ k = "segmentation_type" ∨ k = "segmentation_id")) ∧
          m.get "port_id" = some (Scalar.str sp.PortID) ∧
          m.get "segmentation_type" = some (Scalar.str sp.SegmentationType) ∧
          m.get "segmentation_id" = some (Scalar.int sp.SegmentationID) :=
  ⟨⟨rfl, rfl, rfl, fun _ => rfl⟩,
    trunk_sub_port_flattening (sampleTrunkEnv [sampleTrunk]) sampleData () sampleTrunk
      rfl rfl rfl (fun _ => rfl)⟩

/-- The map built for one fixed IP has the two keys and nothing else. -/
theorem fixed_ip_map_entries (a b : String) :
    (∀ k, (((GoMap.empty.set "subnet_id" a).set "ip_address" b).get k).isSome = true ↔
      (k = "subnet_id" ∨ k = "ip_address")) ∧
    ((GoMap.empty.set "subnet_id" a).set "ip_address" b).get "subnet_id" = some a ∧
    ((GoMap.empty.set "subnet_id" a).set "ip_address" b).get "ip_address" = some b := by
  refine ⟨?_, ?_, ?_⟩
  · intro k
    simp only [GoMap.empty, GoMap.set, GoMap.get]
    by_cases h1 : "subnet_id" = k
    · simp [h1.symm]
    · by_cases h2 : "ip_address" = k
      · simp [h2.symm]
      · simp [h1, h2, Ne.symm h1, Ne.symm h2]
  · simp [GoMap.empty, GoMap.set, GoMap.get]
  · simp [GoMap.empty, GoMap.set, GoMap.get]

/-- The fixed IPs are appended one by one to a slice that is not nil. -/
theorem routerExternalFixedIPs_eq_map (ips : List ExternalFixedIP) :
    routerExternalFixedIPs ips =
      some (ips.map (fun v => (GoMap.empty.set "subnet_id" v.SubnetID).set "ip_address"
        v.IPAddress)) := by
  have hfold : ∀ (l : List ExternalFixedIP) (acc : List (GoMap String)),
      l.foldl (fun (acc : GoSlice (GoMap String)) v =>
          acc.append ((GoMap.empty.set "subnet_id" v.SubnetID).set "ip_address" v.IPAddress))
        (some acc) =
      some (acc ++ l.map (fun v => (GoMap.empty.set "subnet_id" v.SubnetID).set "ip_address"
        v.IPAddress)) := by
    intro l
    induction l with
    | nil => simp
    | cons v rest ih =>
      intro acc
      have hstep : GoSlice.append (some acc)
          ((GoMap.empty.set "subnet_id" v.SubnetID).set "ip_address" v.IPAddress) =
          some (acc ++ [(GoMap.empty.set "subnet_id" v.SubnetID).set "ip_address"
            v.IPAddress]) := rfl
      rw [List.foldl_cons, hstep, ih]
      simp
  simpa [routerExternalFixedIPs, GoSlice.make0] using hfold ips []

/-- C7. Router computed attributes: on a read with a single match the ID of the data is
the router's ID, and the value handed to state as `external_fixed_ip` is a slice that is
not nil, as long as the gateway's fixed IPs, whose `i`-th element is a map with exactly
the keys subnet_id and ip_address holding the SubnetID and IPAddress of the `i`-th fixed
IP; once `d.Set` accepts it, it is the value under `external_fixed_ip`. -/
theorem router_computed_attributes {Pages : Type} (env : RouterEnv Pages) (d : ResourceData)
    (pages : Pages) (router : Router)
    (hclient : env.clientErr = none)
    (hlist : env.allPages (routerListOpts d) = Except.ok pages)
    (hextract : env.extractRouters pages = Except.ok [router]) :
    (dataSourceNetworkingRouterV2Read env d).2 = [] ∧
    (dataSourceNetworkingRouterV2Read env d).1.id = router.ID ∧
    ∃ maps : List (GoMap String),
      routerExternalFixedIPs router.GatewayInfo.ExternalFixedIPs = some maps ∧
      (env.setErr "external_fixed_ip" (Value.strMaps (some maps)) = none →
        (dataSourceNetworkingRouterV2Read env d).1.state.get "external_fixed_ip" =
          some (Value.strMaps (some maps))) ∧
      maps.length = router.GatewayInfo.ExternalFixedIPs.length ∧
      (router.GatewayInfo.ExternalFixedIPs = [] → maps = []) ∧
      ∀ (i : Nat) (ip : ExternalFixedIP), router.GatewayInfo.ExternalFixedIPs[i]? = some ip →
        ∃ m, maps[i]? = some m ∧
          (∀ k, (m.get k).isSome = true ↔ (k = "subnet_id" ∨ k = "ip_address")) ∧
          m.get "subnet_id" = some ip.SubnetID ∧
          m.get "ip_address" = some ip.IPAddress := by
  refine ⟨?_, ?_, _, routerExternalFixedIPs_eq_map _, ?_, ?_, ?_, ?_⟩
  · simp [dataSourceNetworkingRouterV2Read, hclient, hlist, hextract]
  · simp [dataSourceNetworkingRouterV2Read, hclient, hlist, hextract, routerPopulate,
      ResourceData.set_fst_id, ResourceData.setId]
  · intro hset
    simp only [dataSourceNetworkingRouterV2Read, hclient, hlist, hextract, routerPopulate,
      List.length_singleton, Nat.lt_irrefl, if_false, gt_iff_lt, routerExternalFixedIPs_eq_map]
    exact ResourceData.set_fst_state_get _ _ _ _ hset
  · simp
  · intro h
    simp [h]
  · intro i ip hip
    refine ⟨_, ?_, fixed_ip_map_entries ip.SubnetID ip.IPAddress⟩
    simp [hip]

/-- Witness of C7 on a router whose gateway has two fixed IPs. -/
theorem router_computed_attributes_witness :
    ((sampleRouterEnv [sampleRouter]).clientErr = none ∧
      (sampleRouterEnv [sampleRouter]).allPages (routerListOpts sampleData) = Except.ok () ∧
      (sampleRouterEnv [sampleRouter]).extractRouters () = Except.ok [sampleRouter]) ∧
    (dataSourceNetworkingRouterV2Read (sampleRouterEnv [sampleRouter]) sampleData).2 = [] ∧
    (dataSourceNetworkingRouterV2Read (sampleRouterEnv [sampleRouter]) sampleData).1.id =
      sampleRouter.ID :=
  ⟨⟨rfl, rfl, rfl⟩,
    (router_computed_attributes (sampleRouterEnv [sampleRouter]) sampleData () sampleRouter
      rfl rfl rfl).1,
    (router_computed_attributes (sampleRouterEnv [sampleRouter]) sampleData () sampleRouter
      rfl rfl rfl).2.1⟩

end Openstack
